import Mathlib

/-!
Verification development for the arbitrum-sdk message-lifecycle and
network-registry code.

The definitions below are a shallow embedding of the TypeScript sources:

* `src/lib/message/L2ToL1Message.ts` — the outbound (chain→parent) message
  tracker: `L2ToL1Message.getL2ToL1MessageLogs`,
  `L2ToL1MessageReader.updateSendRoot`, `L2ToL1MessageReader.status`,
  `L2ToL1MessageReader.getOutboxProof`, `L2ToL1MessageWriter.execute`.
* `src/lib/dataEntities/networks.ts` — the network registry:
  `getNetwork`, `getL2Network`, `getChain`, `addCustomNetwork`,
  `addCustomChain`.

BigNumber values are modelled as `Nat` (arbitrary-precision, non-negative in
all uses here); addresses, hashes and calldata are also modelled as `Nat`
identifiers since only equality on them matters.  Thrown JS exceptions are
modelled with `Except String` (the string is the error message), except where
mutation of module-global state must survive a throw, in which case a
function returns the final state paired with `Option String` (the thrown
error, if any).
-/

set_option autoImplicit false

namespace ArbSdk

/-- `L2ToL1MessageStatus` enum from `L2ToL1Message.ts`:
NOT_FOUND = 0, UNCONFIRMED = 1, CONFIRMED = 2, EXECUTED = 3. -/
inductive L2ToL1MessageStatus where
  | NOT_FOUND
  | UNCONFIRMED
  | CONFIRMED
  | EXECUTED
deriving DecidableEq, Repr

/-- Numeric value of the TS enum member (used in interpolated error text). -/
def L2ToL1MessageStatus.toNat : L2ToL1MessageStatus → Nat
  | .NOT_FOUND => 0
  | .UNCONFIRMED => 1
  | .CONFIRMED => 2
  | .EXECUTED => 3

/-- The `L2ToL1Event` payload (`L2ToL1Message.ts`). -/
structure L2ToL1Ev where
  caller : Nat
  destination : Nat
  hash : Nat
  position : Nat
  indexInBatch : Nat
  arbBlockNum : Nat
  ethBlockNum : Nat
  timestamp : Nat
  callvalue : Nat
  data : Nat
deriving DecidableEq, Repr

/-- A parsed `NodeConfirmed(nodeNum, blockHash, sendRoot)` rollup event. -/
structure NodeConfirmedLog where
  nodeNum : Nat
  blockHash : Nat
  sendRoot : Nat
deriving DecidableEq, Repr

/-- The fields of an L2 block header read by `updateSendRoot`
(`sendRoot` and `sendCount` from `eth_getBlockByHash`). -/
structure L2BlockHeader where
  sendRoot : Nat
  sendCount : Nat
deriving DecidableEq, Repr

/-- Read-only chain environment seen by one call into the tracker:
the rollup contract's `latestConfirmed()` answer, the `NodeConfirmed`
logs returned for a given node number within the searched block window,
the block-by-hash oracle, the outbox `spent` mapping, and the
`NodeInterface.constructOutboxProof(size, leaf)` oracle. -/
structure ChainEnv where
  latestConfirmed : Nat
  nodeConfirmedLogs : Nat → List NodeConfirmedLog
  blockByHash : Nat → L2BlockHeader
  spent : Nat → Bool
  constructOutboxProof : Nat → Nat → List Nat

/-- The mutable per-message-instance fields of `L2ToL1MessageReader`:
`sendRootHash?` and `sendRootSize?`. -/
structure MsgState where
  sendRootHash : Option Nat
  sendRootSize : Option Nat
deriving DecidableEq, Repr

/-- A freshly constructed `L2ToL1MessageReader`: both cache fields unset. -/
def MsgState.init : MsgState := ⟨none, none⟩

/-- The instance invariant maintained by the class: the two cache fields are
set together (both assigned in the same statement of `updateSendRoot`). -/
def MsgState.wf (s : MsgState) : Prop := s.sendRootHash.isSome = s.sendRootSize.isSome

/-- `L2ToL1MessageReader.updateSendRoot`.  Returns immediately if the root is
already memoized.  Otherwise fetches the `NodeConfirmed` logs for the latest
confirmed node; `if (logs.length !== 1) throw new Error('missing logs')`;
fetches the committed block by hash; throws `Error('send roots')` when the
block's self-reported `sendRoot` differs from the one in the log; finally
memoizes hash and size only when `sendCount > position`. -/
def updateSendRoot (s : MsgState) (ev : L2ToL1Ev) (env : ChainEnv) :
    Except String MsgState :=
  if s.sendRootHash.isSome then .ok s
  else
    match env.nodeConfirmedLogs env.latestConfirmed with
    | [lg] =>
      let l2Block := env.blockByHash lg.blockHash
      if l2Block.sendRoot ≠ lg.sendRoot then .error "send roots"
      else
        let sendRootSize := l2Block.sendCount
        if sendRootSize > ev.position then
          .ok { sendRootHash := some lg.sendRoot, sendRootSize := some sendRootSize }
        else .ok s
    | _ => .error "missing logs"

/-- `L2ToL1MessageReader.status`.  Runs `updateSendRoot`; when no confirming
root is memoized afterwards the message is UNCONFIRMED; otherwise the outbox
`spent(position)` answer decides EXECUTED vs CONFIRMED. -/
def status (s : MsgState) (ev : L2ToL1Ev) (env : ChainEnv) :
    Except String (L2ToL1MessageStatus × MsgState) :=
  match updateSendRoot s ev env with
  | .error e => .error e
  | .ok s' =>
    if s'.sendRootHash.isSome then
      .ok ((if env.spent ev.position then .EXECUTED else .CONFIRMED), s')
    else .ok (.UNCONFIRMED, s')

/-- `L2ToL1MessageReader.getOutboxProof`.  Runs `updateSendRoot`; throws
`ArbTsError('Node not confirmed, cannot get proof.')` when no send-root size
is memoized; otherwise delegates to `constructOutboxProof(size, position)`
and returns its `proof` field. -/
def getOutboxProof (s : MsgState) (ev : L2ToL1Ev) (env : ChainEnv) :
    Except String (List Nat × MsgState) :=
  match updateSendRoot s ev env with
  | .error e => .error e
  | .ok s' =>
    match s'.sendRootSize with
    | none => .error "Node not confirmed, cannot get proof."
    | some size => .ok (env.constructOutboxProof size ev.position, s')

/-- The `ArbTsError` message thrown by `L2ToL1MessageWriter.execute` when the
status is not CONFIRMED; the TS template interpolates the numeric enum values:
`Cannot execute message. Status is: X but must be 2.` -/
def executeError (st : L2ToL1MessageStatus) : String :=
  "Cannot execute message. Status is: " ++ toString st.toNat ++ " but must be 2."

/-- The arguments of the `outbox.executeTransaction` call submitted by
`L2ToL1MessageWriter.execute`. -/
structure OutboxExecuteTx where
  proof : List Nat
  index : Nat
  l2Sender : Nat
  l1Dest : Nat
  l2Block : Nat
  l1Block : Nat
  l2Timestamp : Nat
  value : Nat
  data : Nat
deriving DecidableEq, Repr

/-- `L2ToL1MessageWriter.execute`: reads `status`, throws the precondition
error unless it is exactly CONFIRMED, then builds the outbox proof and
submits `executeTransaction` with the original event fields. -/
def execute (s : MsgState) (ev : L2ToL1Ev) (env : ChainEnv) :
    Except String (OutboxExecuteTx × MsgState) :=
  match status s ev env with
  | .error e => .error e
  | .ok (st, s') =>
    if st ≠ .CONFIRMED then .error (executeError st)
    else
      match getOutboxProof s' ev env with
      | .error e => .error e
      | .ok (proof, s'') =>
        .ok ({ proof := proof
               index := ev.position
               l2Sender := ev.caller
               l1Dest := ev.destination
               l2Block := ev.arbBlockNum
               l1Block := ev.ethBlockNum
               l2Timestamp := ev.timestamp
               value := ev.callvalue
               data := ev.data }, s'')

/-- `L2ToL1Message.getL2ToL1MessageLogs`, after the event fetch: `events` is
the list returned by the fetcher for the caller's filter.  When an
`indexInBatch` disambiguator is supplied, exactly one match is returned
as a singleton, more than one is `ArbTsError('More than one indexed item
found in batch.')`, and none is the empty list. -/
def getL2ToL1MessageLogs (events : List L2ToL1Ev) (indexInBatch : Option Nat) :
    Except String (List L2ToL1Ev) :=
  match indexInBatch with
  | some i =>
    let indexItems := events.filter (fun b => b.indexInBatch == i)
    if indexItems.length = 1 then .ok indexItems
    else if indexItems.length > 1 then
      .error "More than one indexed item found in batch."
    else .ok []
  | none => .ok events

/-! Helper lemmas about the tracker state machine. -/

/-- Once the confirming root is memoized, `updateSendRoot` is a no-op. -/
theorem updateSendRoot_memo (s : MsgState) (ev : L2ToL1Ev) (env : ChainEnv)
    (h : s.sendRootHash.isSome = true) : updateSendRoot s ev env = .ok s := by
  simp [updateSendRoot, h]

/-- Once the confirming root is memoized, `status` only re-reads the outbox
`spent` flag. -/
theorem status_memo (s : MsgState) (ev : L2ToL1Ev) (env : ChainEnv)
    (h : s.sendRootHash.isSome = true) :
    status s ev env =
      .ok ((if env.spent ev.position then .EXECUTED else .CONFIRMED), s) := by
  simp [status, updateSendRoot_memo s ev env h, h]

/-- A successful `status` call returns the state produced by `updateSendRoot`,
and its answer is dictated by whether a root is memoized in that state. -/
theorem status_ok_cases (s : MsgState) (ev : L2ToL1Ev) (env : ChainEnv)
    (st : L2ToL1MessageStatus) (s' : MsgState)
    (h : status s ev env = .ok (st, s')) :
    updateSendRoot s ev env = .ok s' ∧
    ((s'.sendRootHash.isSome = true ∧
        st = (if env.spent ev.position then .EXECUTED else .CONFIRMED)) ∨
      (s'.sendRootHash.isSome = false ∧ st = .UNCONFIRMED)) := by
  unfold status at h
  cases hu : updateSendRoot s ev env with
  | error e => rw [hu] at h; exact absurd h (by simp)
  | ok t =>
    rw [hu] at h
    dsimp only at h
    by_cases hh : t.sendRootHash.isSome = true
    · rw [if_pos hh] at h
      simp only [Except.ok.injEq, Prod.mk.injEq] at h
      obtain ⟨hst, rfl⟩ := h
      exact ⟨rfl, Or.inl ⟨hh, hst.symm⟩⟩
    · rw [if_neg hh] at h
      simp only [Except.ok.injEq, Prod.mk.injEq] at h
      obtain ⟨hst, rfl⟩ := h
      have hh2 : t.sendRootHash.isSome = false := by simpa using hh
      exact ⟨rfl, Or.inr ⟨hh2, hst.symm⟩⟩

/-- `updateSendRoot` preserves the instance invariant (the two cache fields
are set together). -/
theorem updateSendRoot_wf (s : MsgState) (ev : L2ToL1Ev) (env : ChainEnv)
    (s' : MsgState) (hwf : s.wf) (h : updateSendRoot s ev env = .ok s') :
    s'.wf := by
  unfold updateSendRoot at h
  by_cases hh : s.sendRootHash.isSome = true
  · rw [if_pos hh] at h
    have hs : s = s' := by simpa using h
    subst hs; exact hwf
  · rw [if_neg hh] at h
    cases hl : env.nodeConfirmedLogs env.latestConfirmed with
    | nil => simp only [hl] at h; exact absurd h (by simp)
    | cons lg rest =>
      cases rest with
      | cons lg2 rest2 => simp only [hl] at h; exact absurd h (by simp)
      | nil =>
        simp only [hl] at h
        by_cases hr : (env.blockByHash lg.blockHash).sendRoot ≠ lg.sendRoot
        · rw [if_pos hr] at h; exact absurd h (by simp)
        · rw [if_neg hr] at h
          by_cases hc : (env.blockByHash lg.blockHash).sendCount > ev.position
          · rw [if_pos hc] at h
            have hs : MsgState.mk (some lg.sendRoot)
                (some (env.blockByHash lg.blockHash).sendCount) = s' := by
              simpa using h
            subst hs; simp [MsgState.wf]
          · rw [if_neg hc] at h
            have hs : s = s' := by simpa using h
            subst hs; exact hwf

/-- When the cache is empty, exactly one `NodeConfirmed` log is found and the
committed block's root matches, `updateSendRoot` memoizes the root precisely
when the block's send counter exceeds the message position. -/
theorem updateSendRoot_resolves (s : MsgState) (ev : L2ToL1Ev) (env : ChainEnv)
    (lg : NodeConfirmedLog)
    (hfresh : s.sendRootHash = none)
    (hlogs : env.nodeConfirmedLogs env.latestConfirmed = [lg])
    (hroot : (env.blockByHash lg.blockHash).sendRoot = lg.sendRoot) :
    updateSendRoot s ev env =
      (if ev.position < (env.blockByHash lg.blockHash).sendCount then
        .ok { sendRootHash := some lg.sendRoot
              sendRootSize := some (env.blockByHash lg.blockHash).sendCount }
      else .ok s) := by
  unfold updateSendRoot
  rw [if_neg (by simp [hfresh])]
  simp only [hlogs, hroot]
  by_cases hc : (env.blockByHash lg.blockHash).sendCount > ev.position
  · rw [if_pos hc]
    simp
  · rw [if_neg hc]
    simp

/-- C1: for an outbound message event whose confirming assertion is found
(one `NodeConfirmed` log for the latest confirmed node, and the origin-chain
block's root matches the committed one), `status()` compares the message
position with that block's send counter: position < counter gives EXECUTED
when the outbox reports the position spent and CONFIRMED otherwise, and
position ≥ counter gives UNCONFIRMED. -/
theorem status_compares_position_with_send_counter
    (s : MsgState) (ev : L2ToL1Ev) (env : ChainEnv) (lg : NodeConfirmedLog)
    (hfresh : s.sendRootHash = none)
    (hlogs : env.nodeConfirmedLogs env.latestConfirmed = [lg])
    (hroot : (env.blockByHash lg.blockHash).sendRoot = lg.sendRoot) :
    (ev.position < (env.blockByHash lg.blockHash).sendCount →
      status s ev env =
        .ok ((if env.spent ev.position then .EXECUTED else .CONFIRMED),
          { sendRootHash := some lg.sendRoot
            sendRootSize := some (env.blockByHash lg.blockHash).sendCount })) ∧
    ((env.blockByHash lg.blockHash).sendCount ≤ ev.position →
      status s ev env = .ok (.UNCONFIRMED, s)) := by
  have hu := updateSendRoot_resolves s ev env lg hfresh hlogs hroot
  constructor
  · intro hc
    rw [if_pos hc] at hu
    unfold status
    rw [hu]
    simp
  · intro hc
    rw [if_neg (by omega)] at hu
    unfold status
    rw [hu]
    dsimp only
    rw [if_neg (by simp [hfresh])]

/-- The spec's C1 scenario: position 5, one confirmed assertion whose block
reports sendCount 10 and a matching root 42, outbox not spent. -/
def evPos5 : L2ToL1Ev :=
  { caller := 21, destination := 22, hash := 23, position := 5, indexInBatch := 0
    arbBlockNum := 31, ethBlockNum := 32, timestamp := 33, callvalue := 34, data := 35 }

/-- Environment for the C1 scenario: `NodeConfirmed(0, blockHash 1, sendRoot 42)`,
block 1 reports `sendRoot 42, sendCount 10`, nothing spent. -/
def envScenario : ChainEnv :=
  { latestConfirmed := 0
    nodeConfirmedLogs := fun _ => [⟨0, 1, 42⟩]
    blockByHash := fun _ => ⟨42, 10⟩
    spent := fun _ => false
    constructOutboxProof := fun _ _ => [] }

/-- Witness for C1: in the scenario, `status` returns CONFIRMED (5 < 10 and
`spent(5) = false`) and memoizes root 42 at size 10. -/
theorem status_compares_position_with_send_counter_witness :
    status MsgState.init evPos5 envScenario =
      .ok (.CONFIRMED, { sendRootHash := some 42, sendRootSize := some 10 }) ∧
    envScenario.spent 5 = false := by
  constructor
  · have h := (status_compares_position_with_send_counter MsgState.init evPos5
      envScenario ⟨0, 1, 42⟩ rfl rfl rfl).1 (by decide)
    simpa using h
  · rfl

/-- C2 (amended): when no `NodeConfirmed` log at all is found in the searched
window for the latest confirmed node, `status()` throws `Error('missing logs')`
instead of returning UNCONFIRMED. -/
theorem status_throws_when_no_confirmed_log
    (s : MsgState) (ev : L2ToL1Ev) (env : ChainEnv)
    (hfresh : s.sendRootHash = none)
    (hlogs : env.nodeConfirmedLogs env.latestConfirmed = []) :
    status s ev env = .error "missing logs" := by
  unfold status updateSendRoot
  rw [if_neg (by simp [hfresh])]
  simp only [hlogs]

/-- Environment in which the `NodeConfirmed` log search comes back empty. -/
def envNoLogs : ChainEnv :=
  { latestConfirmed := 0
    nodeConfirmedLogs := fun _ => []
    blockByHash := fun _ => ⟨0, 0⟩
    spent := fun _ => false
    constructOutboxProof := fun _ _ => [] }

/-- Counterexample to C2 as stated: with no assertion-confirmed log in the
search window, `status()` throws (`missing logs`) rather than returning
UNCONFIRMED. -/
theorem status_no_logs_throws_cx :
    status MsgState.init evPos5 envNoLogs = .error "missing logs" ∧
    status MsgState.init evPos5 envNoLogs ≠
      .ok (.UNCONFIRMED, MsgState.init) := by
  refine ⟨rfl, fun hcontra => ?_⟩
  rw [show status MsgState.init evPos5 envNoLogs = .error "missing logs" from rfl] at hcontra
  exact Except.noConfusion hcontra

/-- Witness for the amended C2: the amended theorem applied to the concrete
empty-log environment. -/
theorem status_throws_when_no_confirmed_log_witness :
    status MsgState.init evPos5 envNoLogs = .error "missing logs" :=
  status_throws_when_no_confirmed_log MsgState.init evPos5 envNoLogs rfl rfl

/-- C3: over successive `status()` calls on the same message instance the
observed status is monotonic.  The two calls may see different chain
environments; the only assumption on the chain is the outbox invariant that
a spent position stays spent.  Once a call has returned CONFIRMED or
EXECUTED (the confirming root is memoized write-once), no later call returns
UNCONFIRMED; once a call has returned EXECUTED, every later call returns
EXECUTED (in particular never CONFIRMED). -/
theorem status_monotonic
    (s0 s1 s2 : MsgState) (ev : L2ToL1Ev) (env1 env2 : ChainEnv)
    (st1 st2 : L2ToL1MessageStatus)
    (h1 : status s0 ev env1 = .ok (st1, s1))
    (h2 : status s1 ev env2 = .ok (st2, s2))
    (hspent : env1.spent ev.position = true → env2.spent ev.position = true) :
    ((st1 = .CONFIRMED ∨ st1 = .EXECUTED) → st2 ≠ .UNCONFIRMED) ∧
    (st1 = .EXECUTED → st2 = .EXECUTED) := by
  obtain ⟨-, hcases1⟩ := status_ok_cases s0 ev env1 st1 s1 h1
  have main : ∀ hsome : s1.sendRootHash.isSome = true,
      st2 = (if env2.spent ev.position then .EXECUTED else .CONFIRMED) := by
    intro hsome
    have hm := status_memo s1 ev env2 hsome
    rw [hm] at h2
    simp only [Except.ok.injEq, Prod.mk.injEq] at h2
    exact h2.1.symm
  rcases hcases1 with ⟨hsome, hst1⟩ | ⟨hnone, hst1⟩
  · constructor
    · intro _
      rw [main hsome]
      by_cases hsp : env2.spent ev.position = true <;> simp [hsp]
    · intro hex
      have hsp1 : env1.spent ev.position = true := by
        by_contra hsp1
        rw [hst1, if_neg hsp1] at hex
        exact absurd hex (by decide)
      rw [main hsome, if_pos (hspent hsp1)]
  · constructor
    · intro hor
      rw [hst1] at hor
      rcases hor with hc | hc <;> exact absurd hc (by decide)
    · intro hex
      rw [hst1] at hex
      exact absurd hex (by decide)

/-- Environment for the second call in the C3 witness: the position has been
spent in the meantime. -/
def envScenarioSpent : ChainEnv :=
  { latestConfirmed := 0
    nodeConfirmedLogs := fun _ => [⟨0, 1, 42⟩]
    blockByHash := fun _ => ⟨42, 10⟩
    spent := fun _ => true
    constructOutboxProof := fun _ _ => [] }

/-- Witness for C3: the first call returns CONFIRMED, the second call (after
the outbox marks the position spent) returns EXECUTED — not UNCONFIRMED. -/
theorem status_monotonic_witness :
    status MsgState.init evPos5 envScenario =
      .ok (.CONFIRMED, { sendRootHash := some 42, sendRootSize := some 10 }) ∧
    status { sendRootHash := some 42, sendRootSize := some 10 } evPos5
        envScenarioSpent =
      .ok (.EXECUTED, { sendRootHash := some 42, sendRootSize := some 10 }) ∧
    L2ToL1MessageStatus.EXECUTED ≠ .UNCONFIRMED := by
  have h := status_monotonic MsgState.init
    { sendRootHash := some 42, sendRootSize := some 10 }
    { sendRootHash := some 42, sendRootSize := some 10 }
    evPos5 envScenario envScenarioSpent .CONFIRMED .EXECUTED rfl rfl
    (fun _ => rfl)
  exact ⟨rfl, rfl, h.1 (Or.inl rfl)⟩

/-- C4 (amended): after fetching the candidate confirming block the tracker
does verify that the block's self-reported send root equals the root
committed in the `NodeConfirmed` event, and on mismatch it throws rather
than continuing — but the thrown error is the fixed string `send roots`,
carrying no chain, block or assertion identifiers. -/
theorem sendRoot_mismatch_throws
    (s : MsgState) (ev : L2ToL1Ev) (env : ChainEnv) (lg : NodeConfirmedLog)
    (hfresh : s.sendRootHash = none)
    (hlogs : env.nodeConfirmedLogs env.latestConfirmed = [lg])
    (hroot : (env.blockByHash lg.blockHash).sendRoot ≠ lg.sendRoot) :
    status s ev env = .error "send roots" := by
  unfold status updateSendRoot
  rw [if_neg (by simp [hfresh])]
  simp only [hlogs]
  rw [if_pos hroot]

/-- A chain environment whose committed block reports a send root (43) that
differs from the one in the assertion event (42). -/
def envMismatchA : ChainEnv :=
  { latestConfirmed := 3
    nodeConfirmedLogs := fun _ => [⟨3, 1, 42⟩]
    blockByHash := fun _ => ⟨43, 10⟩
    spent := fun _ => false
    constructOutboxProof := fun _ _ => [] }

/-- A second mismatching environment with different assertion and block
identifiers (node 8, block hash 2, roots 77 vs 78). -/
def envMismatchB : ChainEnv :=
  { latestConfirmed := 8
    nodeConfirmedLogs := fun _ => [⟨8, 2, 77⟩]
    blockByHash := fun _ => ⟨78, 10⟩
    spent := fun _ => false
    constructOutboxProof := fun _ _ => [] }

/-- Counterexample to C4 as stated: two environments with different chain
state (different assertion ids, block hashes and roots) both make `status()`
throw the very same fixed string `send roots` — the integrity error includes
no identifying context at all. -/
theorem sendRoot_mismatch_no_context_cx :
    status MsgState.init evPos5 envMismatchA = .error "send roots" ∧
    status MsgState.init evPos5 envMismatchB = .error "send roots" :=
  ⟨rfl, rfl⟩

/-- Witness for the amended C4: the amended theorem applied at the first
mismatching environment. -/
theorem sendRoot_mismatch_throws_witness :
    status MsgState.init evPos5 envMismatchA = .error "send roots" :=
  sendRoot_mismatch_throws MsgState.init evPos5 envMismatchA ⟨3, 1, 42⟩
    rfl rfl (by decide)

/-- Once the cache fields are populated, `getOutboxProof` returns the oracle
proof for the memoized size and the message position. -/
theorem getOutboxProof_memo (s : MsgState) (ev : L2ToL1Ev) (env : ChainEnv)
    (k : Nat) (hsize : s.sendRootSize = some k)
    (hhash : s.sendRootHash.isSome = true) :
    getOutboxProof s ev env = .ok (env.constructOutboxProof k ev.position, s) := by
  unfold getOutboxProof
  simp only [updateSendRoot_memo s ev env hhash, hsize]

/-- C6: `getOutboxProof` fails with `Node not confirmed, cannot get proof.`
whenever `status()` reports UNCONFIRMED (no confirmed send root covering the
position has been resolved); whenever `status()` reports CONFIRMED or
EXECUTED the failure branch is unreachable and the sibling-hash proof from
the `constructOutboxProof` oracle is returned. -/
theorem getOutboxProof_requires_confirmed_root
    (s : MsgState) (ev : L2ToL1Ev) (env : ChainEnv)
    (st : L2ToL1MessageStatus) (s' : MsgState)
    (hwf : s.wf)
    (hst : status s ev env = .ok (st, s')) :
    (st = .UNCONFIRMED →
      getOutboxProof s ev env = .error "Node not confirmed, cannot get proof.") ∧
    ((st = .CONFIRMED ∨ st = .EXECUTED) →
      getOutboxProof s ev env =
        .ok (env.constructOutboxProof (s'.sendRootSize.getD 0) ev.position, s')) := by
  obtain ⟨hu, hcases⟩ := status_ok_cases s ev env st s' hst
  have hwf' : s'.wf := updateSendRoot_wf s ev env s' hwf hu
  rcases hcases with ⟨hsome, hstv⟩ | ⟨hnone, hstv⟩
  · constructor
    · intro hunc
      rw [hstv] at hunc
      by_cases hsp : env.spent ev.position = true
      · rw [if_pos hsp] at hunc; exact absurd hunc (by decide)
      · rw [if_neg hsp] at hunc; exact absurd hunc (by decide)
    · intro _
      have hsz : s'.sendRootSize.isSome = true := by
        rw [MsgState.wf] at hwf'; rw [← hwf']; exact hsome
      obtain ⟨k, hk⟩ := Option.isSome_iff_exists.mp hsz
      unfold getOutboxProof
      simp only [hu, hk]
      simp [hk]
  · constructor
    · intro _
      have hsz : s'.sendRootSize = none := by
        rw [MsgState.wf] at hwf'
        rw [hnone] at hwf'
        exact Option.not_isSome_iff_eq_none.mp (by simp [← hwf'])
      unfold getOutboxProof
      simp only [hu, hsz]
    · intro hor
      rw [hstv] at hor
      rcases hor with hc | hc <;> exact absurd hc (by decide)

/-- Chain environment whose confirmed assertion does not yet cover position 5
(send counter 3 ≤ 5): `status` is UNCONFIRMED there. -/
def envUnconfirmed : ChainEnv :=
  { latestConfirmed := 0
    nodeConfirmedLogs := fun _ => [⟨0, 1, 42⟩]
    blockByHash := fun _ => ⟨42, 3⟩
    spent := fun _ => false
    constructOutboxProof := fun _ _ => [] }

/-- Witness for C6: with the UNCONFIRMED environment the proof call fails;
with the CONFIRMED environment it returns the oracle proof. -/
theorem getOutboxProof_requires_confirmed_root_witness :
    getOutboxProof MsgState.init evPos5 envUnconfirmed =
      .error "Node not confirmed, cannot get proof." ∧
    getOutboxProof MsgState.init evPos5 envScenario =
      .ok (envScenario.constructOutboxProof 10 5,
        { sendRootHash := some 42, sendRootSize := some 10 }) := by
  constructor
  · exact (getOutboxProof_requires_confirmed_root MsgState.init evPos5
      envUnconfirmed .UNCONFIRMED MsgState.init rfl rfl).1 rfl
  · have h := (getOutboxProof_requires_confirmed_root MsgState.init evPos5
      envScenario .CONFIRMED
      { sendRootHash := some 42, sendRootSize := some 10 } rfl rfl).2
      (Or.inl rfl)
    simpa using h

/-- C5: `execute()` succeeds exactly when `status()` is CONFIRMED.  In every
other status it throws the precondition error carrying the attempted status
and the required one (CONFIRMED = 2); the error thrown for an
already-EXECUTED message is distinct from the errors for the other statuses
and spells out attempted (3) versus required (2) state. -/
theorem execute_requires_confirmed
    (s : MsgState) (ev : L2ToL1Ev) (env : ChainEnv)
    (st : L2ToL1MessageStatus) (s' : MsgState)
    (hwf : s.wf)
    (hst : status s ev env = .ok (st, s')) :
    (st ≠ .CONFIRMED → execute s ev env = .error (executeError st)) ∧
    (st = .CONFIRMED → execute s ev env =
      .ok ({ proof := env.constructOutboxProof (s'.sendRootSize.getD 0) ev.position
             index := ev.position
             l2Sender := ev.caller
             l1Dest := ev.destination
             l2Block := ev.arbBlockNum
             l1Block := ev.ethBlockNum
             l2Timestamp := ev.timestamp
             value := ev.callvalue
             data := ev.data }, s')) ∧
    (executeError .EXECUTED ≠ executeError .UNCONFIRMED ∧
      executeError .EXECUTED ≠ executeError .NOT_FOUND ∧
      executeError .EXECUTED =
        "Cannot execute message. Status is: 3 but must be 2.") := by
  refine ⟨?_, ?_, by decide, by decide, by decide⟩
  · intro hne
    unfold execute
    rw [hst]
    dsimp only
    rw [if_pos hne]
  · intro hc
    subst hc
    obtain ⟨hu, hcases⟩ := status_ok_cases s ev env .CONFIRMED s' hst
    have hwf' : s'.wf := updateSendRoot_wf s ev env s' hwf hu
    rcases hcases with ⟨hsome, -⟩ | ⟨-, hstv⟩
    · have hsz : s'.sendRootSize.isSome = true := by
        rw [MsgState.wf] at hwf'; rw [← hwf']; exact hsome
      obtain ⟨k, hk⟩ := Option.isSome_iff_exists.mp hsz
      unfold execute
      rw [hst]
      dsimp only
      rw [if_neg (by simp)]
      rw [getOutboxProof_memo s' ev env k hk hsome]
      simp [hk]
    · exact absurd hstv.symm (by decide)

/-- Witness for C5: executing in the CONFIRMED environment submits the outbox
transaction built from the event fields; executing in the UNCONFIRMED
environment throws the precondition error with attempted status 1. -/
theorem execute_requires_confirmed_witness :
    execute MsgState.init evPos5 envScenario =
      .ok ({ proof := envScenario.constructOutboxProof 10 5
             index := 5, l2Sender := 21, l1Dest := 22, l2Block := 31
             l1Block := 32, l2Timestamp := 33, value := 34, data := 35 },
        { sendRootHash := some 42, sendRootSize := some 10 }) ∧
    execute MsgState.init evPos5 envUnconfirmed =
      .error "Cannot execute message. Status is: 1 but must be 2." := by
  constructor
  · have h := (execute_requires_confirmed MsgState.init evPos5 envScenario
      .CONFIRMED { sendRootHash := some 42, sendRootSize := some 10 }
      rfl rfl).2.1 rfl
    simpa using h
  · have h := (execute_requires_confirmed MsgState.init evPos5 envUnconfirmed
      .UNCONFIRMED MsgState.init rfl rfl).1 (by decide)
    simpa [executeError, L2ToL1MessageStatus.toNat] using h

/-- C8: when an `indexInBatch` disambiguator is supplied to the outbound
message log search, more than one matching log in the fetched range is an
integrity error; exactly one match returns that single log; no match returns
the empty list. -/
theorem getL2ToL1MessageLogs_indexInBatch
    (events : List L2ToL1Ev) (i : Nat) :
    ((events.filter (fun b => b.indexInBatch == i)).length > 1 →
      getL2ToL1MessageLogs events (some i) =
        .error "More than one indexed item found in batch.") ∧
    ((events.filter (fun b => b.indexInBatch == i)).length = 1 →
      getL2ToL1MessageLogs events (some i) =
        .ok (events.filter (fun b => b.indexInBatch == i))) ∧
    ((events.filter (fun b => b.indexInBatch == i)).length = 0 →
      getL2ToL1MessageLogs events (some i) = .ok []) := by
  refine ⟨fun hgt => ?_, fun heq => ?_, fun hz => ?_⟩
  · unfold getL2ToL1MessageLogs
    dsimp only
    rw [if_neg (by omega), if_pos hgt]
  · unfold getL2ToL1MessageLogs
    dsimp only
    rw [if_pos heq]
  · unfold getL2ToL1MessageLogs
    dsimp only
    rw [if_neg (by omega), if_neg (by omega)]

/-- Three events sharing `indexInBatch = 4` except the middle one. -/
def evIdxA : L2ToL1Ev :=
  { caller := 1, destination := 2, hash := 3, position := 4, indexInBatch := 4
    arbBlockNum := 5, ethBlockNum := 6, timestamp := 7, callvalue := 8, data := 9 }

/-- A second event with a different `indexInBatch`. -/
def evIdxB : L2ToL1Ev :=
  { caller := 1, destination := 2, hash := 13, position := 14, indexInBatch := 5
    arbBlockNum := 5, ethBlockNum := 6, timestamp := 7, callvalue := 8, data := 9 }

/-- A third event that duplicates `indexInBatch = 4`. -/
def evIdxC : L2ToL1Ev :=
  { caller := 1, destination := 2, hash := 23, position := 24, indexInBatch := 4
    arbBlockNum := 5, ethBlockNum := 6, timestamp := 7, callvalue := 8, data := 9 }

/-- Witness for C8: duplicate matches fail, a unique match is returned alone,
and no match yields the empty list. -/
theorem getL2ToL1MessageLogs_indexInBatch_witness :
    getL2ToL1MessageLogs [evIdxA, evIdxB, evIdxC] (some 4) =
      .error "More than one indexed item found in batch." ∧
    getL2ToL1MessageLogs [evIdxA, evIdxB, evIdxC] (some 5) = .ok [evIdxB] ∧
    getL2ToL1MessageLogs [evIdxA, evIdxB, evIdxC] (some 6) = .ok [] := by
  refine ⟨?_, ?_, ?_⟩
  · exact (getL2ToL1MessageLogs_indexInBatch [evIdxA, evIdxB, evIdxC] 4).1
      (by decide)
  · have h := (getL2ToL1MessageLogs_indexInBatch [evIdxA, evIdxB, evIdxC] 5).2.1
      (by decide)
    simpa using h
  · exact (getL2ToL1MessageLogs_indexInBatch [evIdxA, evIdxB, evIdxC] 6).2.2
      (by decide)

/-! Network registry (`networks.ts`).  The registry tables are module-global
JS objects mutated in place, so the registration functions are modelled as
state transformers returning the final table state together with the thrown
error, if any — a throw does not roll back mutations already performed. -/

/-- An `L1Network`: the fields consulted by the registration and lookup code
(`chainID`, `isCustom`, `partnerChainIDs`). -/
structure L1Net where
  chainID : Nat
  isCustom : Bool
  partnerChainIDs : List Nat
deriving DecidableEq, Repr

/-- An `L2Network` (also a `Chain`): the fields consulted by the registration
and lookup code. -/
structure L2Net where
  chainID : Nat
  isCustom : Bool
  partnerChainID : Nat
deriving DecidableEq, Repr

/-- A user-supplied `ParentChain` descriptor passed to `addCustomChain`. -/
structure ParentChainDesc where
  chainID : Nat
  isCustom : Bool
  partnerChainIDs : List Nat
deriving DecidableEq, Repr

/-- An entry of the `parentChains` table.  JS object spreads can build
degenerate entries (spreading `undefined` yields `{}`), so `chainID` and
`isCustom` may be absent. -/
structure ParentEntry where
  chainIdOpt : Option Nat
  isCustomOpt : Option Bool
  partnerChainIDs : List Nat
deriving DecidableEq, Repr

/-- The stored form of a user-supplied parent-chain descriptor. -/
def ParentChainDesc.toEntry (p : ParentChainDesc) : ParentEntry :=
  { chainIdOpt := some p.chainID
    isCustomOpt := some p.isCustom
    partnerChainIDs := p.partnerChainIDs }

/-- `{ ...l2Networks[pid], partnerChainIDs: [] }`: the parent entry built by
`addCustomChain` when the partner is missing from `parentChains`; spreading
a missing `l2Networks` entry yields an empty object. -/
def spreadL2AsParent : Option L2Net → ParentEntry
  | some n => { chainIdOpt := some n.chainID, isCustomOpt := some n.isCustom
                partnerChainIDs := [] }
  | none => { chainIdOpt := none, isCustomOpt := none, partnerChainIDs := [] }

/-- The four module-global tables of `networks.ts`: `l1Networks`,
`l2Networks`, `parentChains` and `chains`, as association lists keyed by
chain id. -/
structure NetRegistry where
  l1Networks : List (Nat × L1Net)
  l2Networks : List (Nat × L2Net)
  parentChains : List (Nat × ParentEntry)
  chains : List (Nat × L2Net)
deriving DecidableEq, Repr

/-- JS object assignment `table[k] = v`: replace an existing binding or
append a new one. -/
def setEntry {α : Type} (k : Nat) (v : α) : List (Nat × α) → List (Nat × α)
  | [] => [(k, v)]
  | (k', v') :: rest =>
    if k' = k then (k, v) :: rest else (k', v') :: setEntry k v rest

/-- Looking up the key just assigned finds the new value. -/
theorem lookup_setEntry_self {α : Type} (k : Nat) (v : α)
    (m : List (Nat × α)) : (setEntry k v m).lookup k = some v := by
  induction m with
  | nil => simp [setEntry, List.lookup]
  | cons hd tl ih =>
    obtain ⟨k', v'⟩ := hd
    by_cases hk : k' = k
    · simp [setEntry, hk, List.lookup]
    · have hbeq : (k == k') = false := by simp [Ne.symm hk]
      simp [setEntry, hk, List.lookup, ih, hbeq]

/-- The tail of `addCustomNetwork` once the optional L1 network has been
handled: validate and insert the custom L2 network, then require its partner
to be present in `l1Networks` (note: the L2 entry is inserted before the
partner check) and record the child in the partner's `partnerChainIDs`. -/
def addCustomNetworkL2 (st : NetRegistry) (customL2Network : L2Net) :
    NetRegistry × Option String :=
  if (st.l2Networks.lookup customL2Network.chainID).isSome then
    (st, some ("Network " ++ toString customL2Network.chainID ++
      " already included"))
  else if !customL2Network.isCustom then
    (st, some ("Custom network " ++ toString customL2Network.chainID ++
      " must have isCustom flag set to true"))
  else
    let st1 := { st with
      l2Networks := setEntry customL2Network.chainID customL2Network st.l2Networks }
    match st1.l1Networks.lookup customL2Network.partnerChainID with
    | none =>
      (st1, some ("Network " ++ toString customL2Network.chainID ++
        "\x27s partner network, " ++ toString customL2Network.partnerChainID ++
        ", not recognized"))
    | some l1PartnerChain =>
      if customL2Network.chainID ∈ l1PartnerChain.partnerChainIDs then
        (st1, none)
      else
        ({ st1 with
          l1Networks := setEntry customL2Network.partnerChainID
            { l1PartnerChain with
              partnerChainIDs := l1PartnerChain.partnerChainIDs ++ [customL2Network.chainID] }
            st1.l1Networks }, none)

/-- `addCustomNetwork`: validate and insert the optional custom L1 network
(inserted before the L2 network is validated), then handle the L2 network. -/
def addCustomNetwork (st : NetRegistry) (customL1Network : Option L1Net)
    (customL2Network : L2Net) : NetRegistry × Option String :=
  match customL1Network with
  | some n =>
    if (st.l1Networks.lookup n.chainID).isSome then
      (st, some ("Network " ++ toString n.chainID ++ " already included"))
    else if !n.isCustom then
      (st, some ("Custom network " ++ toString n.chainID ++
        " must have isCustom flag set to true"))
    else
      addCustomNetworkL2
        { st with l1Networks := setEntry n.chainID n st.l1Networks }
        customL2Network
  | none => addCustomNetworkL2 st customL2Network

/-- The duplicate/isCustom validation of the optional custom parent chain at
the top of `addCustomChain` (performed before any mutation). -/
def checkParent (st : NetRegistry) : Option ParentChainDesc → Option String
  | none => none
  | some p =>
    if (st.parentChains.lookup p.chainID).isSome then
      some ("Parent chain " ++ toString p.chainID ++ " already included.")
    else if !p.isCustom then
      some ("Custom parent chain " ++ toString p.chainID ++
        " must have isCustom flag set to true.")
    else none

/-- `addCustomChain`: parent checks, chain checks, then mutation.  The TS
code computes `parentPartnerChain = { ...parentChains[partnerChainID] }`,
which is a (possibly empty) object and therefore always truthy, so the
`not recognized` throw guarded by `!parentPartnerChain` is unreachable; a
missing partner instead gets a placeholder entry spread from `l2Networks`. -/
def addCustomChain (st : NetRegistry) (customParentChain : Option ParentChainDesc)
    (customChain : L2Net) : NetRegistry × Option String :=
  match checkParent st customParentChain with
  | some e => (st, some e)
  | none =>
    if (st.chains.lookup customChain.chainID).isSome then
      (st, some ("Chain " ++ toString customChain.chainID ++
        " already included."))
    else if !customChain.isCustom then
      (st, some ("Custom chain " ++ toString customChain.chainID ++
        " must have isCustom flag set to true."))
    else
      let st1 := match customParentChain with
        | some p => { st with
            parentChains := setEntry p.chainID p.toEntry st.parentChains }
        | none => st
      let st2 := { st1 with
        chains := setEntry customChain.chainID customChain st1.chains }
      let st3 := match st2.parentChains.lookup customChain.partnerChainID with
        | some _ => st2
        | none =>
          { st2 with
            parentChains := setEntry customChain.partnerChainID
              (spreadL2AsParent (st2.l2Networks.lookup customChain.partnerChainID))
              st2.parentChains }
      match st3.parentChains.lookup customChain.partnerChainID with
      | some pe =>
        if customChain.chainID ∈ pe.partnerChainIDs then (st3, none)
        else
          ({ st3 with
            parentChains := setEntry customChain.partnerChainID
              { pe with
                partnerChainIDs := pe.partnerChainIDs ++ [customChain.chainID] }
              st3.parentChains }, none)
      | none => (st3, some "TypeError")

/-- Both forms of the placeholder parent entry start with an empty child
list. -/
theorem spreadL2AsParent_partnerChainIDs (o : Option L2Net) :
    (spreadL2AsParent o).partnerChainIDs = [] := by
  cases o <;> rfl

/-- A duplicate parent chain id makes `addCustomChain` throw before any
mutation. -/
theorem addCustomChain_dup_parent (st : NetRegistry) (p : ParentChainDesc)
    (c : L2Net) (h : (st.parentChains.lookup p.chainID).isSome = true) :
    addCustomChain st (some p) c =
      (st, some ("Parent chain " ++ toString p.chainID ++
        " already included.")) := by
  simp [addCustomChain, checkParent, h]

/-- A non-custom parent chain makes `addCustomChain` throw before any
mutation. -/
theorem addCustomChain_parent_not_custom (st : NetRegistry)
    (p : ParentChainDesc) (c : L2Net)
    (h1 : st.parentChains.lookup p.chainID = none) (h2 : p.isCustom = false) :
    addCustomChain st (some p) c =
      (st, some ("Custom parent chain " ++ toString p.chainID ++
        " must have isCustom flag set to true.")) := by
  simp [addCustomChain, checkParent, h1, h2]

/-- A duplicate chain id makes `addCustomChain` throw before any mutation. -/
theorem addCustomChain_dup_chain (st : NetRegistry) (c : L2Net)
    (h : (st.chains.lookup c.chainID).isSome = true) :
    addCustomChain st none c =
      (st, some ("Chain " ++ toString c.chainID ++ " already included.")) := by
  simp [addCustomChain, checkParent, h]

/-- A non-custom chain makes `addCustomChain` throw before any mutation. -/
theorem addCustomChain_not_custom (st : NetRegistry) (c : L2Net)
    (h1 : st.chains.lookup c.chainID = none) (h2 : c.isCustom = false) :
    addCustomChain st none c =
      (st, some ("Custom chain " ++ toString c.chainID ++
        " must have isCustom flag set to true.")) := by
  simp [addCustomChain, checkParent, h1, h2]

/-- `addCustomChain` never fails for a missing partner chain: the
`!parentPartnerChain` guard is unreachable (an object spread is always
truthy), and a placeholder parent entry is registered instead. -/
theorem addCustomChain_missing_partner_no_error (st : NetRegistry) (c : L2Net)
    (h1 : st.chains.lookup c.chainID = none) (h2 : c.isCustom = true)
    (h3 : st.parentChains.lookup c.partnerChainID = none) :
    (addCustomChain st none c).2 = none := by
  simp [addCustomChain, checkParent, h1, h2, h3, lookup_setEntry_self,
    spreadL2AsParent_partnerChainIDs]

/-- A duplicate L2 network id makes `addCustomNetwork` (with no L1 network)
throw with the registry unchanged. -/
theorem addCustomNetwork_dup_l2 (st : NetRegistry) (c : L2Net)
    (h : (st.l2Networks.lookup c.chainID).isSome = true) :
    addCustomNetwork st none c =
      (st, some ("Network " ++ toString c.chainID ++ " already included")) := by
  simp [addCustomNetwork, addCustomNetworkL2, h]

/-- When the declared partner chain is absent from `l1Networks`,
`addCustomNetwork` throws — but only after the new L2 entry has already been
inserted into `l2Networks`. -/
theorem addCustomNetwork_partner_missing (st : NetRegistry) (c : L2Net)
    (h1 : st.l2Networks.lookup c.chainID = none) (h2 : c.isCustom = true)
    (h3 : st.l1Networks.lookup c.partnerChainID = none) :
    addCustomNetwork st none c =
      ({ st with l2Networks := setEntry c.chainID c st.l2Networks },
        some ("Network " ++ toString c.chainID ++ "\x27s partner network, " ++
          toString c.partnerChainID ++ ", not recognized")) := by
  simp [addCustomNetwork, addCustomNetworkL2, h1, h2, h3]

/-- When the custom L1 network passes its checks but the L2 network is a
duplicate, `addCustomNetwork` throws with the L1 entry already inserted. -/
theorem addCustomNetwork_l1_kept_on_l2_dup (st : NetRegistry) (n : L1Net)
    (c : L2Net)
    (h1 : st.l1Networks.lookup n.chainID = none) (h2 : n.isCustom = true)
    (h3 : (st.l2Networks.lookup c.chainID).isSome = true) :
    addCustomNetwork st (some n) c =
      ({ st with l1Networks := setEntry n.chainID n st.l1Networks },
        some ("Network " ++ toString c.chainID ++ " already included")) := by
  simp [addCustomNetwork, addCustomNetworkL2, h1, h2, h3]

/-- The empty registry. -/
def regEmpty : NetRegistry := ⟨[], [], [], []⟩

/-- A fresh custom chain whose declared partner (999) is not registered
anywhere. -/
def l2Fresh : L2Net := { chainID := 100, isCustom := true, partnerChainID := 999 }

/-- Counterexample to C7 as stated: on the empty registry, registering
`l2Fresh` through `addCustomNetwork` fails (partner 999 unrecognized) yet
leaves the new entry in `l2Networks` (tables are NOT unchanged on failure);
and registering it through `addCustomChain` does NOT fail at all despite the
missing partner (the partner-existence check is unreachable). -/
theorem addCustom_registration_cx :
    ((addCustomNetwork regEmpty none l2Fresh).2.isSome = true ∧
      (addCustomNetwork regEmpty none l2Fresh).1 ≠ regEmpty ∧
      (addCustomNetwork regEmpty none l2Fresh).1.l2Networks.lookup 100 =
        some l2Fresh) ∧
    (addCustomChain regEmpty none l2Fresh).2 = none := by
  decide

/-- C7 (amended): duplicate-id and missing-custom-flag failures hold as
claimed and (in `addCustomChain`) precede all mutation; but the
partner-chain validation is not atomic: `addCustomNetwork` inserts the new
L2 entry (and any custom L1 entry) before the partner check, so a
partner-missing failure leaves the new entry registered, and
`addCustomChain` never fails for a missing partner at all — it registers a
placeholder parent entry instead. -/
theorem addCustom_registration_behavior :
    (∀ st p c, (st.parentChains.lookup p.chainID).isSome = true →
      addCustomChain st (some p) c =
        (st, some ("Parent chain " ++ toString p.chainID ++
          " already included."))) ∧
    (∀ st p c, st.parentChains.lookup p.chainID = none → p.isCustom = false →
      addCustomChain st (some p) c =
        (st, some ("Custom parent chain " ++ toString p.chainID ++
          " must have isCustom flag set to true."))) ∧
    (∀ st c, (st.chains.lookup c.chainID).isSome = true →
      addCustomChain st none c =
        (st, some ("Chain " ++ toString c.chainID ++ " already included."))) ∧
    (∀ st c, st.chains.lookup c.chainID = none → c.isCustom = false →
      addCustomChain st none c =
        (st, some ("Custom chain " ++ toString c.chainID ++
          " must have isCustom flag set to true."))) ∧
    (∀ st c, (st.l2Networks.lookup c.chainID).isSome = true →
      addCustomNetwork st none c =
        (st, some ("Network " ++ toString c.chainID ++ " already included"))) ∧
    (∀ st c, st.l2Networks.lookup c.chainID = none → c.isCustom = true →
      st.l1Networks.lookup c.partnerChainID = none →
      addCustomNetwork st none c =
        ({ st with l2Networks := setEntry c.chainID c st.l2Networks },
          some ("Network " ++ toString c.chainID ++ "\x27s partner network, " ++
            toString c.partnerChainID ++ ", not recognized"))) ∧
    (∀ st n c, st.l1Networks.lookup n.chainID = none → n.isCustom = true →
      (st.l2Networks.lookup c.chainID).isSome = true →
      addCustomNetwork st (some n) c =
        ({ st with l1Networks := setEntry n.chainID n st.l1Networks },
          some ("Network " ++ toString c.chainID ++ " already included"))) ∧
    (∀ st c, st.chains.lookup c.chainID = none → c.isCustom = true →
      st.parentChains.lookup c.partnerChainID = none →
      (addCustomChain st none c).2 = none) :=
  ⟨addCustomChain_dup_parent,
    addCustomChain_parent_not_custom,
    addCustomChain_dup_chain,
    addCustomChain_not_custom,
    addCustomNetwork_dup_l2,
    addCustomNetwork_partner_missing,
    addCustomNetwork_l1_kept_on_l2_dup,
    addCustomChain_missing_partner_no_error⟩

/-- A registry that already holds parent chain 7. -/
def regWithParent7 : NetRegistry :=
  ⟨[], [], [(7, ParentChainDesc.toEntry ⟨7, true, []⟩)], []⟩

/-- A registry that already holds chain / L2 network 100. -/
def regWith100 : NetRegistry := ⟨[], [(100, l2Fresh)], [], [(100, l2Fresh)]⟩

/-- Witness for the amended C7: each conjunct applied at a concrete
registry. -/
theorem addCustom_registration_behavior_witness :
    addCustomChain regWithParent7 (some ⟨7, true, []⟩) l2Fresh =
      (regWithParent7, some ("Parent chain " ++ toString (7 : Nat) ++
        " already included.")) ∧
    addCustomChain regEmpty (some ⟨7, false, []⟩) l2Fresh =
      (regEmpty, some ("Custom parent chain " ++ toString (7 : Nat) ++
        " must have isCustom flag set to true.")) ∧
    addCustomChain regWith100 none l2Fresh =
      (regWith100, some ("Chain " ++ toString (100 : Nat) ++
        " already included.")) ∧
    addCustomChain regEmpty none { chainID := 100, isCustom := false, partnerChainID := 999 } =
      (regEmpty, some ("Custom chain " ++ toString (100 : Nat) ++
        " must have isCustom flag set to true.")) ∧
    addCustomNetwork regWith100 none l2Fresh =
      (regWith100, some ("Network " ++ toString (100 : Nat) ++
        " already included")) ∧
    addCustomNetwork regEmpty none l2Fresh =
      ({ regEmpty with l2Networks := setEntry 100 l2Fresh regEmpty.l2Networks },
        some ("Network " ++ toString (100 : Nat) ++ "\x27s partner network, " ++
          toString (999 : Nat) ++ ", not recognized")) ∧
    addCustomNetwork regWith100 (some ⟨5, true, []⟩) l2Fresh =
      ({ regWith100 with l1Networks := setEntry 5 ⟨5, true, []⟩ regWith100.l1Networks },
        some ("Network " ++ toString (100 : Nat) ++ " already included")) ∧
    (addCustomChain regEmpty none l2Fresh).2 = none := by
  obtain ⟨h1, h2, h3, h4, h5, h6, h7, h8⟩ := addCustom_registration_behavior
  refine ⟨?_, ?_, ?_, ?_, ?_, ?_, ?_, ?_⟩
  · exact h1 regWithParent7 ⟨7, true, []⟩ l2Fresh (by decide)
  · exact h2 regEmpty ⟨7, false, []⟩ l2Fresh (by decide) (by decide)
  · exact h3 regWith100 l2Fresh (by decide)
  · exact h4 regEmpty _ (by decide) (by decide)
  · exact h5 regWith100 l2Fresh (by decide)
  · exact h6 regEmpty l2Fresh (by decide) (by decide) (by decide)
  · exact h7 regWith100 ⟨5, true, []⟩ l2Fresh (by decide) (by decide) (by decide)
  · exact h8 regEmpty l2Fresh (by decide) (by decide) (by decide)

/-! Lookup functions of `networks.ts`.  A call into a JS `async` function
never throws synchronously — any failure surfaces as a rejected promise —
while a `try { ... } catch { ... }` around it only intercepts synchronous
throws.  `JsCall` distinguishes the two outcomes. -/

/-- Result of invoking a JS function that is expected to produce a promise:
either a synchronous throw (which a surrounding `try`/`catch` would catch)
or a promise that later settles (`Except.error` = rejection). -/
inductive JsCall (α : Type) where
  | syncThrow (e : String)
  | promise (r : Except String α)
deriving Repr

/-- A JS `try { body } catch { handler }` where `body` produces a `JsCall`:
the handler runs only on a synchronous throw; a rejected promise flows
through untouched. -/
def tryCatchSync {α : Type} (body : JsCall α) (handler : Unit → JsCall α) :
    JsCall α :=
  match body with
  | .syncThrow _ => handler ()
  | .promise r => .promise r

/-- The value produced by `getNetwork` (an `L1Network` for layer 1, an
`L2Network`/`Chain` for layer 2). -/
inductive NetworkResult where
  | l1 (n : L1Net)
  | l2 (n : L2Net)
deriving DecidableEq, Repr

/-- `getNetwork(signerOrProviderOrChainID, layer)` for a caller-supplied
chain id.  It is an `async` arrow function: invoking it never throws
synchronously.  Layer 1 consults `l1Networks`; layer 2 consults
`l2Networks[chainID] || chains[chainID]`; a miss rejects with
`Unrecognized network {chainID}.`. -/
def getNetwork (st : NetRegistry) (chainID : Nat) (layer : Nat) :
    JsCall NetworkResult :=
  .promise (
    let networkOpt : Option NetworkResult :=
      if layer = 1 then (st.l1Networks.lookup chainID).map .l1
      else
        match st.l2Networks.lookup chainID with
        | some n => some (.l2 n)
        | none => (st.chains.lookup chainID).map .l2
    match networkOpt with
    | some n => .ok n
    | none => .error ("Unrecognized network " ++ toString chainID ++ "."))

/-- `getChain` (via `getParentChainOrChain` with the `chains` table), also an
`async` function: a miss rejects with `Unrecognized Chain {chainID}.`. -/
def getChain (st : NetRegistry) (chainID : Nat) : JsCall L2Net :=
  .promise (
    match st.chains.lookup chainID with
    | some c => .ok c
    | none => .error ("Unrecognized Chain " ++ toString chainID ++ "."))

/-- `getL2Network`: `try { l2Network = getNetwork(..., 2) } catch { l2Network
= getChain(...) }` and return whichever promise was captured. -/
def getL2Network (st : NetRegistry) (chainID : Nat) : JsCall NetworkResult :=
  tryCatchSync (getNetwork st chainID 2) (fun _ =>
    match getChain st chainID with
    | .syncThrow e => .syncThrow e
    | .promise r => .promise (r.map .l2))

/-- C10: `getNetwork` is async, so the guarded call returns a promise and
never throws synchronously; the bare `catch` in `getL2Network` therefore
never executes and `getL2Network` is extensionally `getNetwork(..., 2)`.
In particular a chain id present in neither `l2Networks` nor `chains`
propagates as a rejection with the `Unrecognized network` error and the
`getChain` fallback is never consulted. -/
theorem getL2Network_catch_never_runs (st : NetRegistry) (chainID : Nat) :
    getL2Network st chainID = getNetwork st chainID 2 ∧
    (st.l2Networks.lookup chainID = none → st.chains.lookup chainID = none →
      getL2Network st chainID =
        .promise (.error ("Unrecognized network " ++ toString chainID ++ "."))) := by
  constructor
  · rfl
  · intro h1 h2
    simp [getL2Network, tryCatchSync, getNetwork, h1, h2]

/-- Witness for C10: chain id 555 is in neither table of `regWith100`, and
`getL2Network` rejects with the `Unrecognized network` message (produced by
`getNetwork`, not by the `getChain` fallback, whose message would name
`Chain`). -/
theorem getL2Network_catch_never_runs_witness :
    getL2Network regWith100 555 = getNetwork regWith100 555 2 ∧
    getL2Network regWith100 555 =
      .promise (.error ("Unrecognized network " ++ toString (555 : Nat) ++ ".")) :=
  ⟨(getL2Network_catch_never_runs regWith100 555).1,
    (getL2Network_catch_never_runs regWith100 555).2 rfl rfl⟩

/-! Fee-estimation increase policy (spec §4.3).  The gas/fee estimator
(`L1ToL2MessageGasEstimator.ts`) is not among the available sources — only
its callers and tests are — so it is modelled from the spec. -/

/-- Modelled from the spec: `L1ToL2MessageGasEstimator`'s percentage-increase
policy is missing from the sources; the spec states that all fee/gas
arithmetic uses arbitrary-precision integers and that the increase is
computed as `base + base*percent/100`, truncating toward zero. -/
def percentIncrease (base percent : Nat) : Nat :=
  base + base * percent / 100

/-- Modelled from the spec: caller overrides take the form
`{base, percentIncrease, min}`; the spec requires the result to be at least
the `min` override whenever one is supplied. -/
def applyOverride (base percent : Nat) (minOverride : Option Nat) : Nat :=
  match minOverride with
  | some m => max (percentIncrease base percent) m
  | none => percentIncrease base percent

/-- Counterexample to C9 as stated: raising `percentIncrease` from 1% to 2%
on base 1 leaves the result unchanged (1 + 1*1/100 = 1 = 1 + 1*2/100), so
the increase is not strict away from 0%. -/
theorem percentIncrease_not_strict_cx :
    percentIncrease 1 1 = 1 ∧ percentIncrease 1 2 = 1 ∧ (1 : Nat) < 2 ∧
    ¬ percentIncrease 1 1 < percentIncrease 1 2 := by
  decide

/-- C9 (amended): the increase policy computes `base + base*percent/100`
over arbitrary-precision integers truncating toward zero; for a fixed base
the result is monotone (non-decreasing) in `percentIncrease` — strictness
can fail because of truncation — and whenever a `min` override is supplied
the result is at least `min`. -/
theorem percentIncrease_monotone_and_min :
    (∀ base percent, percentIncrease base percent =
      base + base * percent / 100) ∧
    (∀ base p1 p2 o, p1 ≤ p2 →
      applyOverride base p1 o ≤ applyOverride base p2 o) ∧
    (∀ base percent m, m ≤ applyOverride base percent (some m)) := by
  refine ⟨fun base percent => rfl, ?_, ?_⟩
  · intro base p1 p2 o h
    have hpi : percentIncrease base p1 ≤ percentIncrease base p2 :=
      Nat.add_le_add_left
        (Nat.div_le_div_right (Nat.mul_le_mul_left base h)) base
    cases o with
    | none => exact hpi
    | some m => exact max_le_max hpi (le_refl m)
  · intro base percent m
    exact le_max_right _ m

/-- Witness for the amended C9: 5% ≤ 10% gives 105 ≤ 110 on base 100, and a
min override of 1000 lifts the result to at least 1000. -/
theorem percentIncrease_monotone_and_min_witness :
    applyOverride 100 5 none ≤ applyOverride 100 10 none ∧
    (1000 : Nat) ≤ applyOverride 100 5 (some 1000) :=
  ⟨percentIncrease_monotone_and_min.2.1 100 5 10 none (by decide),
    percentIncrease_monotone_and_min.2.2 100 5 1000⟩

end ArbSdk
